import Mathlib

/-!
# SCMI Clock Management Protocol — verification development

Shallow embedding of `src/module/scmi_clock/src/mod_scmi_clock.c` (Arm
SCP/MCP firmware, SCMI clock protocol handler) and proofs of the
specification's claims about it.

Conventions of the embedding:
* C machine integers are modelled as `Nat`, with `% 2^32` / `% 2^64` (or
  `% 256` for `uint8_t` table entries) applied exactly where the C type
  forces a wrap.
* The framework statuses (`FWK_SUCCESS`, `FWK_PENDING`, `FWK_E_*`) and the
  agent-visible SCMI statuses are inductive enumerations.
* `fwk_id_t` service identifiers are `Nat`; the distinguished `FWK_ID_NONE`
  value used by the operation-slot tracker is modelled with `Option Nat`
  (`none` = `FWK_ID_NONE`, i.e. slot available).
* External collaborators (transport `get_agent_id`, the clock HAL calls,
  `fwk_thread_put_event`) are parameters of the functions that call them;
  `fwk_thread_put_event` is modelled as always succeeding (its failure path
  merely propagates the framework status before any state is touched).
* Responses sent through `scmi_api->respond` and events queued through
  `fwk_thread_put_event` are collected in output lists.
-/

/-- Framework status codes (`fwk_status.h`) used by the module. -/
inductive FwkStatus where
  | success
  | pending
  | eParam
  | eRange
  | eBusy
  | eSupport
  | eState
  | eSize
  | eAccess
  | eDevice
  deriving DecidableEq, Repr

/-- Agent-visible SCMI protocol status codes. -/
inductive ScmiStatus where
  | success
  | notSupported
  | invalidParameters
  | denied
  | notFound
  | outOfRange
  | busy
  | genericError
  | protocolError
  deriving DecidableEq, Repr

/-- `enum mod_clock_state` (`mod_clock.h`): `STOPPED`, `RUNNING`, plus the
`MOD_CLOCK_STATE_COUNT` sentinel used by `create_event_request` for
non-state-setting requests. -/
inductive ModClockState where
  | stopped
  | running
  | count
  deriving DecidableEq, Repr

/-- `enum mod_clock_round_mode` (`mod_clock.h`). -/
inductive ModClockRoundMode where
  | nearest
  | up
  | down
  deriving DecidableEq, Repr

/-- `enum scmi_clock_request_type`: the four operation kinds tracked by the
per-clock operation slot. -/
inductive ScmiClockRequestType where
  | getState
  | getRate
  | setRate
  | setState
  deriving DecidableEq, Repr

/-- `enum mod_scmi_clock_policy_commit`: whether a policy hook runs before
hardware dispatch or after completion. -/
inductive PolicyCommit where
  | pre
  | post
  deriving DecidableEq, Repr

/-- `enum mod_scmi_clock_policy_status`: a policy's instruction to the
message handler. -/
inductive PolicyStatus where
  | skipMessageHandler
  | executeMessageHandler
  deriving DecidableEq, Repr

/-! ## Wire encoding of 64-bit rates (C10)

`get_rate_respond` (lines 387–388) splits a `uint64_t` rate into two
`uint32_t` words; `scmi_clock_rate_set_handler` (lines 981–982) and
`process_request_event` (lines 1459–1460) rebuild the 64-bit value from the
two words, one with `|`, the other with `+`. -/

/-- Encoding used by `get_rate_respond` (and when building the set-rate
event data): `rate[0] = (uint32_t)rate; rate[1] = (uint32_t)(rate >> 32)`. -/
def rate_words_encode (rate : Nat) : Nat × Nat :=
  (rate % 2 ^ 32, (rate >>> 32) % 2 ^ 32)

/-- Decoding used by `scmi_clock_rate_set_handler` (lines 981–982):
`rate = ((uint64_t)rate[1] << 32) | (uint64_t)rate[0]`. -/
def rate_set_decode (lo hi : Nat) : Nat :=
  ((hi <<< 32) ||| lo) % 2 ^ 64

/-- Decoding used by `process_request_event` (lines 1459–1460):
`rate = (uint64_t)rate[0] + ((uint64_t)rate[1] << 32)`. -/
def request_event_rate_decode (lo hi : Nat) : Nat :=
  (lo + (hi <<< 32)) % 2 ^ 64

/-- Helper: or-ing a value shifted past 32 bits with a 32-bit value is
addition. -/
theorem shiftLeft_or_low (hi lo : Nat) (h : lo < 2 ^ 32) :
    (hi <<< 32) ||| lo = hi * 2 ^ 32 + lo := by
  rw [Nat.mul_comm]
  apply Nat.eq_of_testBit_eq
  intro j
  rw [Nat.testBit_or, Nat.testBit_shiftLeft, Nat.testBit_mul_pow_two_add hi h j]
  by_cases hj : j < 32
  · have hge : ¬(32 ≤ j) := by omega
    simp [hj, hge]
  · have hge : 32 ≤ j := by omega
    have hlo : lo < 2 ^ j := lt_of_lt_of_le h (Nat.pow_le_pow_right (by omega) hge)
    simp [hj, hge, Nat.testBit_lt_two_pow hlo]

/-- C10: for every 64-bit rate value `r`, including `0` and the maximum
`uint64_t`, encoding `r` into a `(low, high)` pair of 32-bit words as done
by the rate-get response (`get_rate_respond`) and decoding the pair back as
done by the two rate-set paths (`scmi_clock_rate_set_handler` and
`process_request_event`) yields `r` again. -/
theorem C10_rate_words_round_trip (r : Nat) (h : r < 2 ^ 64) :
    rate_set_decode (rate_words_encode r).1 (rate_words_encode r).2 = r ∧
    request_event_rate_decode (rate_words_encode r).1 (rate_words_encode r).2 = r := by
  have h1 : r >>> 32 = r / 2 ^ 32 := Nat.shiftRight_eq_div_pow r 32
  have h2 : r / 2 ^ 32 < 2 ^ 32 := by omega
  have hmod : r % 2 ^ 32 < 2 ^ 32 := Nat.mod_lt _ (by norm_num)
  have hdm := Nat.div_add_mod r (2 ^ 32)
  constructor
  · show ((((r >>> 32) % 2 ^ 32) <<< 32) ||| (r % 2 ^ 32)) % 2 ^ 64 = r
    rw [h1, Nat.mod_eq_of_lt h2, shiftLeft_or_low _ _ hmod]
    omega
  · show ((r % 2 ^ 32) + ((r >>> 32) % 2 ^ 32) <<< 32) % 2 ^ 64 = r
    rw [h1, Nat.mod_eq_of_lt h2, Nat.shiftLeft_eq]
    omega

/-- Witness for C10 at the boundary inputs `0` and `2^64 - 1`. -/
theorem C10_rate_words_round_trip_witness :
    (0 < 2 ^ 64 ∧
      rate_set_decode (rate_words_encode 0).1 (rate_words_encode 0).2 = 0) ∧
    (2 ^ 64 - 1 < 2 ^ 64 ∧
      rate_set_decode (rate_words_encode (2 ^ 64 - 1)).1
          (rate_words_encode (2 ^ 64 - 1)).2 = 2 ^ 64 - 1 ∧
      request_event_rate_decode (rate_words_encode (2 ^ 64 - 1)).1
          (rate_words_encode (2 ^ 64 - 1)).2 = 2 ^ 64 - 1) :=
  ⟨⟨by norm_num, (C10_rate_words_round_trip 0 (by norm_num)).1⟩,
   ⟨by norm_num, (C10_rate_words_round_trip (2 ^ 64 - 1) (by norm_num)).1,
     (C10_rate_words_round_trip (2 ^ 64 - 1) (by norm_num)).2⟩⟩

/-! ## Data model -/

/-- `struct mod_scmi_clock_device`: one agent-visible clock.  `element_idx`
models `fwk_id_get_element_idx(element_id)`, the index of the physical
clock device in the global clock-operations table. -/
structure ClockDeviceView where
  element_idx : Nat
  starts_enabled : Bool
  deriving DecidableEq, Repr

/-- `struct mod_scmi_clock_agent`: the per-agent device table.
`device_count` is the table length. -/
structure ScmiClockAgent where
  device_table : List ClockDeviceView
  deriving DecidableEq, Repr

def ScmiClockAgent.device_count (a : ScmiClockAgent) : Nat :=
  a.device_table.length

/-- The immutable part of `struct scmi_clock_ctx`: configuration plus the
transport's `get_agent_id` resolution (an external collaborator, modelled
as a function that may fail with an arbitrary framework status). -/
structure ScmiClockCtx where
  agent_table : List ScmiClockAgent
  clock_devices : Nat
  getAgentId : Nat → Except FwkStatus Nat

def ScmiClockCtx.agent_count (ctx : ScmiClockCtx) : Nat :=
  ctx.agent_table.length

/-- `struct clock_operations`: the per-physical-clock operation slot.
`service_id = none` models `FWK_ID_NONE` (slot available). -/
structure ClockOperations where
  service_id : Option Nat
  state : ModClockState
  clock_dev_id : Nat
  request : ScmiClockRequestType
  deriving DecidableEq, Repr

/-! ## Device Registry lookups -/

/-- `get_agent_entry`: resolve a service handle to its agent descriptor;
fails with the transport's status if `get_agent_id` fails, and with
`FWK_E_PARAM` if the agent id is outside the configured table. -/
def get_agent_entry (ctx : ScmiClockCtx) (service_id : Nat) :
    Except FwkStatus ScmiClockAgent :=
  match ctx.getAgentId service_id with
  | .error e => .error e
  | .ok agent_id =>
    match ctx.agent_table[agent_id]? with
    | none => .error .eParam
    | some agent => .ok agent

/-- `get_clock_device_entry`: resolve `(service, clock index)` to the
device view and the owning agent; fails with `FWK_E_RANGE` if the index is
outside the agent's device table. -/
def get_clock_device_entry (ctx : ScmiClockCtx) (service_id clock_idx : Nat) :
    Except FwkStatus (ClockDeviceView × ScmiClockAgent) :=
  match get_agent_entry ctx service_id with
  | .error e => .error e
  | .ok agent =>
    match agent.device_table[clock_idx]? with
    | none => .error .eRange
    | some dev => .ok (dev, agent)

/-! ## Protocol Dispatcher (C6) -/

/-- `payload_size_table` (lines 143–154).  The numeric entries are the
`sizeof` of the per-opcode request structs.  Modelled from the spec: the
structs live in `internal/scmi_clock.h` (not under `src/`); §6 of the spec
gives the request fields as 32-bit words — none, none, `message_id`,
`clock_id`, `clock_id`, `clock_id, flags, rate_low, rate_high`,
`clock_id, attributes`, `clock_id, rate_index` — hence 0, 0, 4, 4, 4, 16,
8, 8 bytes. -/
def payload_size_table : List Nat := [0, 0, 4, 4, 4, 16, 8, 8]

/-- Outcome of the top-level dispatcher: either a synchronous minimal
response carrying only a status code (no handler invoked), or the
invocation of `handler_table[message_id]`. -/
inductive DispatchOutcome where
  | errorResponse (st : ScmiStatus)
  | invokeHandler (message_id : Nat)
  deriving DecidableEq, Repr

/-- `scmi_clock_message_handler` (lines 1294–1332), without the optional
`BUILD_HAS_MOD_RESOURCE_PERMS` permission gate: validates the opcode
against the handler table and the payload length against
`payload_size_table`, else emits a status-only response. -/
def scmi_clock_message_handler (message_id payload_size : Nat) :
    DispatchOutcome :=
  if message_id ≥ payload_size_table.length then
    .errorResponse .notFound
  else if payload_size ≠ payload_size_table.getD message_id 0 then
    .errorResponse .protocolError
  else
    .invokeHandler message_id

/-- C6: for every incoming message, the dispatcher responds NotFound when
the opcode is outside the handler table, responds ProtocolError when the
payload length differs from the fixed size declared for that opcode — in
each failure case with a minimal status-only response and without invoking
any message handler — and otherwise invokes the matching handler. -/
theorem C6_dispatcher_validation (message_id payload_size : Nat) :
    (message_id ≥ payload_size_table.length →
      scmi_clock_message_handler message_id payload_size =
        .errorResponse .notFound) ∧
    (message_id < payload_size_table.length →
      payload_size ≠ payload_size_table.getD message_id 0 →
      scmi_clock_message_handler message_id payload_size =
        .errorResponse .protocolError) ∧
    (message_id < payload_size_table.length →
      payload_size = payload_size_table.getD message_id 0 →
      scmi_clock_message_handler message_id payload_size =
        .invokeHandler message_id) ∧
    (∀ st, scmi_clock_message_handler message_id payload_size ≠
        DispatchOutcome.invokeHandler message_id →
      scmi_clock_message_handler message_id payload_size =
          DispatchOutcome.errorResponse st →
      st = .notFound ∨ st = .protocolError) := by
  refine ⟨?_, ?_, ?_, ?_⟩
  · intro h
    unfold scmi_clock_message_handler
    rw [if_pos h]
  · intro h1 h2
    unfold scmi_clock_message_handler
    rw [if_neg (Nat.not_le_of_lt h1), if_pos h2]
  · intro h1 h2
    unfold scmi_clock_message_handler
    rw [if_neg (Nat.not_le_of_lt h1), if_neg (fun hn => hn h2)]
  · intro st _ h
    unfold scmi_clock_message_handler at h
    by_cases hm : message_id ≥ payload_size_table.length
    · rw [if_pos hm] at h
      injection h with h1
      exact Or.inl h1.symm
    · by_cases hp : payload_size ≠ payload_size_table.getD message_id 0
      · rw [if_neg hm, if_pos hp] at h
        injection h with h1
        exact Or.inr h1.symm
      · rw [if_neg hm, if_neg hp] at h
        exact DispatchOutcome.noConfusion h

/-- Witness for C6: opcode 9 is out of table (NotFound); opcode 6
(ConfigSet) with a 4-byte payload mismatches its declared 8 bytes
(ProtocolError); opcode 6 with 8 bytes dispatches. -/
theorem C6_dispatcher_validation_witness :
    scmi_clock_message_handler 9 0 = .errorResponse .notFound ∧
    scmi_clock_message_handler 6 4 = .errorResponse .protocolError ∧
    scmi_clock_message_handler 6 8 = .invokeHandler 6 :=
  ⟨(C6_dispatcher_validation 9 0).1 (by decide),
   (C6_dispatcher_validation 6 4).2.1 (by decide) (by decide),
   (C6_dispatcher_validation 6 8).2.2.1 (by decide) (by decide)⟩

/-! ## Request Tracker and event creation -/

/-- The data carried by a request event (`union event_request_data`). -/
inductive RequestData where
  | empty
  | rateData (lo hi : Nat) (round_mode : ModClockRoundMode)
  | stateData (st : ModClockState)
  deriving DecidableEq, Repr

/-- A request event queued with `fwk_thread_put_event`: the event id
(request kind), `params->clock_dev_id` (here its element index) and the
request data. -/
structure FwkEventReq where
  kind : ScmiClockRequestType
  clock_dev_idx : Nat
  data : RequestData
  deriving DecidableEq, Repr

/-- `clock_ops_is_available` (lines 338–342). -/
def clock_ops_is_available (slots : Nat → ClockOperations)
    (clock_dev_idx : Nat) : Bool :=
  (slots clock_dev_idx).service_id = none

/-- `clock_ops_set_busy` (lines 299–310).  Note that the source stores the
agent-visible `clock_idx` in the `clock_dev_id` field. -/
def clock_ops_set_busy (slots : Nat → ClockOperations)
    (clock_dev_idx : Nat) (service_id : Nat) (clock_dev_id : Nat)
    (state : ModClockState) (request : ScmiClockRequestType) :
    Nat → ClockOperations :=
  fun j =>
    if j = clock_dev_idx then
      { service_id := some service_id, state := state,
        clock_dev_id := clock_dev_id, request := request }
    else slots j

/-- `clock_ops_set_available` (lines 328–331): only the `service_id` field
is reset to `FWK_ID_NONE`. -/
def clock_ops_set_available (slots : Nat → ClockOperations)
    (clock_dev_idx : Nat) : Nat → ClockOperations :=
  fun j =>
    if j = clock_dev_idx then { slots j with service_id := none }
    else slots j

/-- `clock_ops_get_service` (lines 333–336). -/
def clock_ops_get_service (slots : Nat → ClockOperations)
    (clock_dev_idx : Nat) : Option Nat :=
  (slots clock_dev_idx).service_id

/-- Result of `create_event_request`: returned status, updated slot table,
queued events. -/
structure CreateEventResult where
  ret : FwkStatus
  slots : Nat → ClockOperations
  events : List FwkEventReq

/-- `create_event_request` (lines 674–748): fail with `FWK_E_BUSY` if the
clock's operation slot is owned; otherwise build the request event, queue
it, and claim the slot (`fwk_thread_put_event` is modelled as succeeding;
its failure path returns before the slot is claimed). -/
def create_event_request (slots : Nat → ClockOperations)
    (clock_elem_idx : Nat) (service_id : Nat)
    (request : ScmiClockRequestType) (data : RequestData)
    (clock_idx : Nat) : CreateEventResult :=
  if ¬ clock_ops_is_available slots clock_elem_idx then
    ⟨.eBusy, slots, []⟩
  else
    let state : ModClockState :=
      match request, data with
      | .setState, .stateData st => st
      | _, _ => .count
    let evData : RequestData :=
      match request with
      | .setRate => data
      | .setState => data
      | _ => .empty
    let ev : FwkEventReq :=
      { kind := request, clock_dev_idx := clock_elem_idx, data := evData }
    ⟨.success,
     clock_ops_set_busy slots clock_elem_idx service_id clock_idx state request,
     [ev]⟩

/-! ## Response helpers -/

/-- A response sent through `scmi_api->respond`: either the full success
payload of the given shape, or a status-only minimal response. -/
inductive ScmiResponse where
  | statusOnly (st : ScmiStatus)
  | getStateFull (enabled : Bool)
  | getRateFull (lo hi : Nat)
  deriving DecidableEq, Repr

/-- `get_state_respond` (lines 347–374): full attributes payload on
success, status-only GenericError otherwise. -/
def get_state_respond (clock_state : ModClockState) (st : FwkStatus) :
    ScmiResponse :=
  if st = .success then .getStateFull (clock_state = .running)
  else .statusOnly .genericError

/-- `get_rate_respond` (lines 379–401): the 64-bit rate split into
(low, high) 32-bit words on success, status-only GenericError otherwise. -/
def get_rate_respond (rate : Nat) (st : FwkStatus) : ScmiResponse :=
  if st = .success then
    .getRateFull (rate_words_encode rate).1 (rate_words_encode rate).2
  else .statusOnly .genericError

/-- `request_response` (lines 403–421): maps a non-success framework status
of an asynchronous completion to the agent-visible status. -/
def request_response (st : FwkStatus) : ScmiResponse :=
  .statusOnly
    (if st = .eSupport then .notSupported
     else if st = .eRange then .invalidParameters
     else .genericError)

/-- `set_request_respond` (lines 426–443). -/
def set_request_respond (st : FwkStatus) : ScmiResponse :=
  .statusOnly
    (if st = .eRange ∨ st = .eParam then .invalidParameters
     else if st = .eSupport then .notSupported
     else if st ≠ .success then .genericError
     else .success)

/-! ## Clock Attributes handler -/

/-- Result of a message handler: returned framework status, updated slot
table, responses sent, events queued. -/
structure HandlerResult where
  ret : FwkStatus
  slots : Nat → ClockOperations
  responses : List ScmiResponse
  events : List FwkEventReq

/-- `scmi_clock_attributes_handler` (lines 830–876): registry lookup
(failure → status-only NotFound), then a GetState event request
(busy → status-only Busy; otherwise the response is deferred to the
completion path). -/
def scmi_clock_attributes_handler (ctx : ScmiClockCtx)
    (slots : Nat → ClockOperations) (service_id clock_id : Nat) :
    HandlerResult :=
  match get_clock_device_entry ctx service_id clock_id with
  | .error e => ⟨e, slots, [.statusOnly .notFound], []⟩
  | .ok (clock_device, _agent) =>
    let r := create_event_request slots clock_device.element_idx service_id
      .getState .empty clock_id
    if r.ret = .eBusy then ⟨.success, slots, [.statusOnly .busy], []⟩
    else if r.ret ≠ .success then ⟨r.ret, slots, [.statusOnly .genericError], r.events⟩
    else ⟨.success, r.slots, [], r.events⟩

/-! ## Concrete fixtures used by witnesses and counterexamples -/

/-- A one-agent, one-clock configuration: agent 0 sees clock index 0 as
physical clock 0; service handle 0 resolves to agent 0. -/
def ctx0 : ScmiClockCtx :=
  { agent_table := [⟨[⟨0, false⟩]⟩],
    clock_devices := 1,
    getAgentId := fun s => if s = 0 then .ok 0 else .error .eParam }

/-- All operation slots available. -/
def slots_avail : Nat → ClockOperations :=
  fun _ => ⟨none, .count, 0, .getState⟩

/-- All operation slots owned by service 7 (a GetState claim in flight). -/
def slots_busy : Nat → ClockOperations :=
  fun _ => ⟨some 7, .count, 0, .getState⟩

/-- C2: a request arriving while the device's operation slot is owned is
rejected by `create_event_request` with `FWK_E_BUSY` before any state is
touched — the slot table (owner, state, request kind) is returned exactly
as it was and no event is enqueued — and the message handler surfaces this
as the agent-visible Busy status. -/
theorem C2_busy_slot_rejects_request
    (slots : Nat → ClockOperations) (clock_elem_idx owner : Nat)
    (hbusy : (slots clock_elem_idx).service_id = some owner) :
    (∀ service_id request data clock_idx,
      create_event_request slots clock_elem_idx service_id request data
          clock_idx = ⟨.eBusy, slots, []⟩) ∧
    (∀ ctx service_id clock_id clock_device agent,
      get_clock_device_entry ctx service_id clock_id =
          .ok (clock_device, agent) →
      clock_device.element_idx = clock_elem_idx →
      scmi_clock_attributes_handler ctx slots service_id clock_id =
        ⟨.success, slots, [.statusOnly .busy], []⟩) := by
  have hcreate : ∀ service_id request data clock_idx,
      create_event_request slots clock_elem_idx service_id request data
          clock_idx = ⟨.eBusy, slots, []⟩ := by
    intro sid req data cidx
    simp [create_event_request, clock_ops_is_available, hbusy]
  refine ⟨hcreate, ?_⟩
  intro ctx sid cid dev ag hlook helem
  have h1 := hcreate sid .getState .empty cid
  rw [← helem] at h1
  simp [scmi_clock_attributes_handler, hlook, h1]

/-- Witness for C2: with all slots owned by service 7, a GetRate claim
attempt by service 3 gets `FWK_E_BUSY` and changes nothing, and a
ClockAttributes request by service 0 is answered with the Busy status. -/
theorem C2_busy_slot_rejects_request_witness :
    (slots_busy 0).service_id = some 7 ∧
    create_event_request slots_busy 0 3 .getRate .empty 0 =
      ⟨.eBusy, slots_busy, []⟩ ∧
    scmi_clock_attributes_handler ctx0 slots_busy 0 0 =
      ⟨.success, slots_busy, [.statusOnly .busy], []⟩ :=
  ⟨rfl,
   (C2_busy_slot_rejects_request slots_busy 0 7 rfl).1 3 .getRate .empty 0,
   (C2_busy_slot_rejects_request slots_busy 0 7 rfl).2 ctx0 0 0 ⟨0, false⟩
     ⟨[⟨0, false⟩]⟩ rfl rfl⟩

/-- C4 counterexample: in a configuration where agent 0 has
`device_count = 1`, a ClockAttributes request for `clock_id = 1`
(`= device_count`) is answered with NotFound, not OutOfRange — the claim's
stated response status is wrong. -/
theorem C4_counterexample :
    (scmi_clock_attributes_handler ctx0 slots_avail 0 1).responses =
      [.statusOnly .notFound] ∧
    ScmiResponse.statusOnly .notFound ≠ .statusOnly .outOfRange :=
  ⟨rfl, by decide⟩

/-- C4 (amended): for every ClockAttributes request whose `clock_id` is
`≥` the requesting agent's `device_count`, the internal lookup fails with
the range error `FWK_E_RANGE` and the response status is NotFound; for
`clock_id = device_count - 1` the lookup succeeds; no shared state is
touched on the failing case (slot table unchanged, no event queued). -/
theorem C4_attributes_out_of_range_not_found
    (ctx : ScmiClockCtx) (slots : Nat → ClockOperations)
    (service_id clock_id agent_id : Nat) (agent : ScmiClockAgent)
    (hagent : ctx.getAgentId service_id = .ok agent_id)
    (hget : ctx.agent_table[agent_id]? = some agent) :
    (clock_id ≥ agent.device_count →
      scmi_clock_attributes_handler ctx slots service_id clock_id =
        ⟨.eRange, slots, [.statusOnly .notFound], []⟩) ∧
    (0 < agent.device_count → clock_id = agent.device_count - 1 →
      ∃ dev, get_clock_device_entry ctx service_id clock_id =
        .ok (dev, agent)) := by
  have hentry : get_agent_entry ctx service_id = .ok agent := by
    simp [get_agent_entry, hagent, hget]
  constructor
  · intro hge
    have hlen : agent.device_table.length ≤ clock_id := hge
    have hnone : agent.device_table[clock_id]? = none :=
      List.getElem?_eq_none hlen
    simp [scmi_clock_attributes_handler, get_clock_device_entry, hentry,
      hnone]
  · intro hpos heq
    have hlt : clock_id < agent.device_table.length := by
      have h1 : 0 < agent.device_table.length := hpos
      have h2 : clock_id = agent.device_table.length - 1 := heq
      omega
    refine ⟨agent.device_table.get ⟨clock_id, hlt⟩, ?_⟩
    simp [get_clock_device_entry, hentry, List.getElem?_eq_getElem hlt,
      List.get_eq_getElem]

/-- Witness for C4 (amended): in the one-clock configuration,
`clock_id = 1 = device_count` gives the NotFound status-only response with
nothing touched, and `clock_id = 0 = device_count - 1` resolves. -/
theorem C4_attributes_out_of_range_not_found_witness :
    scmi_clock_attributes_handler ctx0 slots_avail 0 1 =
      ⟨.eRange, slots_avail, [.statusOnly .notFound], []⟩ ∧
    ∃ dev, get_clock_device_entry ctx0 0 0 = .ok (dev, ⟨[⟨0, false⟩]⟩) :=
  ⟨(C4_attributes_out_of_range_not_found ctx0 slots_avail 0 1 0
      ⟨[⟨0, false⟩]⟩ rfl rfl).1 (by decide),
   (C4_attributes_out_of_range_not_found ctx0 slots_avail 0 0 0
      ⟨[⟨0, false⟩]⟩ rfl rfl).2 (by decide) (by decide)⟩

/-! ## Default policy hooks

`mod_scmi_clock_config_set_policy` (lines 458–596) keeps two lazily
allocated tables: a flat `agent:clock` committed-state table (indexed
`agent_id * clock_devices + clock_idx`) and a per-clock reference-count
table of `uint8_t` entries.  The embedding models the tables after their
one-time allocation/seeding as explicit state threaded through the
policy. -/

/-- The two bookkeeping tables owned by the default config-set policy.
`clock_count` entries are `uint8_t` in the source, so increments wrap
modulo 256. -/
structure ConfigPolicyTables where
  agent_clock_state : Nat → ModClockState
  clock_count : Nat → Nat

/-- `get_agent_clock_state` (lines 228–258). -/
def get_agent_clock_state (ctx : ScmiClockCtx) (tables : ConfigPolicyTables)
    (service_id clock_idx : Nat) : Except FwkStatus ModClockState :=
  match get_agent_entry ctx service_id with
  | .error e => .error e
  | .ok agent =>
    if clock_idx ≥ agent.device_count then .error .eRange
    else
      match ctx.getAgentId service_id with
      | .error e => .error e
      | .ok agent_id =>
        .ok (tables.agent_clock_state
          (agent_id * ctx.clock_devices + clock_idx))

/-- `set_agent_clock_state` (lines 264–294); its status is ignored by the
caller, so a failing lookup simply leaves the table unchanged. -/
def set_agent_clock_state (ctx : ScmiClockCtx) (tables : ConfigPolicyTables)
    (state : ModClockState) (service_id clock_idx : Nat) :
    ConfigPolicyTables :=
  match get_agent_entry ctx service_id with
  | .error _ => tables
  | .ok agent =>
    if clock_idx ≥ agent.device_count then tables
    else
      match ctx.getAgentId service_id with
      | .error _ => tables
      | .ok agent_id =>
        { tables with agent_clock_state := fun i =>
            if i = agent_id * ctx.clock_devices + clock_idx then state
            else tables.agent_clock_state i }

/-- Result of the config-set policy: returned framework status, the
instruction to the handler, and the (possibly updated) tables. -/
structure PolicyResult where
  ret : FwkStatus
  policy_status : PolicyStatus
  tables : ConfigPolicyTables

/-- `mod_scmi_clock_config_set_policy` (lines 458–596), the default
(weak) state-set policy, after its lazy table initialization.  The
requested `*state` is read but never written by the default policy. -/
def mod_scmi_clock_config_set_policy (ctx : ScmiClockCtx)
    (tables : ConfigPolicyTables) (state : ModClockState)
    (policy_commit : PolicyCommit) (service_id clock_dev_id : Nat) :
    PolicyResult :=
  match get_agent_clock_state ctx tables service_id clock_dev_id with
  | .error e => ⟨e, .skipMessageHandler, tables⟩
  | .ok clock_state =>
    match state with
    | .running =>
      if clock_state = .running then
        ⟨.success, .skipMessageHandler, tables⟩
      else
        let t1 := if policy_commit = .post then
            set_agent_clock_state ctx tables .running service_id clock_dev_id
          else tables
        let st : FwkStatus :=
          if t1.clock_count clock_dev_id ≠ 0 then .eState else .success
        let t2 := if policy_commit = .post then
            { t1 with clock_count := fun i =>
                if i = clock_dev_id then (t1.clock_count i + 1) % 256
                else t1.clock_count i }
          else t1
        ⟨.success,
         if st = .success then .executeMessageHandler
         else .skipMessageHandler,
         t2⟩
    | .stopped =>
      if clock_state = .stopped then
        ⟨.success, .skipMessageHandler, tables⟩
      else if tables.clock_count clock_dev_id = 0 then
        ⟨.eState, .skipMessageHandler, tables⟩
      else
        let t1 := if policy_commit = .post then
            set_agent_clock_state ctx tables .stopped service_id clock_dev_id
          else tables
        let st : FwkStatus :=
          if t1.clock_count clock_dev_id ≠ 1 then .eState else .success
        let t2 := if policy_commit = .post then
            { t1 with clock_count := fun i =>
                if i = clock_dev_id then t1.clock_count i - 1
                else t1.clock_count i }
          else t1
        ⟨.success,
         if st = .success then .executeMessageHandler
         else .skipMessageHandler,
         t2⟩
    | .count => ⟨.eParam, .skipMessageHandler, tables⟩

/-- `mod_scmi_clock_rate_set_policy` (lines 445–456), the default (weak)
rate-set policy: always execute, no rewrite. -/
def mod_scmi_clock_rate_set_policy (round_mode : ModClockRoundMode)
    (rate : Nat) (_policy_commit : PolicyCommit)
    (_service_id _clock_dev_id : Nat) :
    FwkStatus × PolicyStatus × ModClockRoundMode × Nat :=
  (.success, .executeMessageHandler, round_mode, rate)

/-- `clock_ops_update_state` (lines 312–326): after a completed operation,
run the config-set policy in post-completion mode, but only for a
successful `SET_STATE` request.  A slot whose `service_id` is
`FWK_ID_NONE` would make `get_agent_id` fail inside the policy, leaving
the tables unchanged. -/
def clock_ops_update_state (ctx : ScmiClockCtx)
    (tables : ConfigPolicyTables) (slots : Nat → ClockOperations)
    (clock_dev_idx : Nat) (st : FwkStatus) : ConfigPolicyTables :=
  if st = .success ∧ (slots clock_dev_idx).request = .setState then
    match (slots clock_dev_idx).service_id with
    | some sid =>
      (mod_scmi_clock_config_set_policy ctx tables
        (slots clock_dev_idx).state .post sid
        (slots clock_dev_idx).clock_dev_id).tables
    | none => tables
  else tables

/-- `SCMI_CLOCK_CONFIG_SET_ENABLE_MASK`.  Modelled from the spec: §6 gives
the ClockConfigSet request as `clock_id, attributes(enable_bit)`; the
enable flag is the low bit (the header defining the mask is not under
`src/`). -/
def SCMI_CLOCK_CONFIG_SET_ENABLE_MASK : Nat := 1

/-- `scmi_clock_config_set_handler` (lines 1041–1123): registry lookup,
unknown-attribute-bit rejection, state-set policy in pre mode (skip is an
immediate Success), then a SET_STATE event request. -/
def scmi_clock_config_set_handler (ctx : ScmiClockCtx)
    (tables : ConfigPolicyTables) (slots : Nat → ClockOperations)
    (service_id clock_id attributes : Nat) :
    HandlerResult × ConfigPolicyTables :=
  let enable := attributes &&& SCMI_CLOCK_CONFIG_SET_ENABLE_MASK ≠ 0
  match get_clock_device_entry ctx service_id clock_id with
  | .error _ => (⟨.success, slots, [.statusOnly .notFound], []⟩, tables)
  | .ok (clock_device, _agent) =>
    if attributes &&&
        ((2 ^ 32 - 1) ^^^ SCMI_CLOCK_CONFIG_SET_ENABLE_MASK) ≠ 0 then
      (⟨.success, slots, [.statusOnly .invalidParameters], []⟩, tables)
    else
      let data_state : ModClockState :=
        if enable then .running else .stopped
      match ctx.getAgentId service_id with
      | .error _ =>
        (⟨.success, slots, [.statusOnly .genericError], []⟩, tables)
      | .ok _agent_id =>
        let pol := mod_scmi_clock_config_set_policy ctx tables data_state
          .pre service_id clock_id
        if pol.ret ≠ .success then
          (⟨.success, slots, [.statusOnly .genericError], []⟩, pol.tables)
        else if pol.policy_status = .skipMessageHandler then
          (⟨.success, slots, [.statusOnly .success], []⟩, pol.tables)
        else
          let r := create_event_request slots clock_device.element_idx
            service_id .setState (.stateData data_state) clock_id
          if r.ret = .eBusy then
            (⟨.success, slots, [.statusOnly .busy], []⟩, pol.tables)
          else if r.ret ≠ .success then
            (⟨.success, slots, [.statusOnly .genericError], r.events⟩,
             pol.tables)
          else (⟨.success, r.slots, [], r.events⟩, pol.tables)

/-! ## Policy lemmas and claims C5, C3, C8 -/

/-- Resolving the agent entry from a successful `get_agent_id` and an
in-table agent id. -/
theorem get_agent_entry_ok (ctx : ScmiClockCtx) (service_id agent_id : Nat)
    (agent : ScmiClockAgent)
    (hagent : ctx.getAgentId service_id = .ok agent_id)
    (hget : ctx.agent_table[agent_id]? = some agent) :
    get_agent_entry ctx service_id = .ok agent := by
  simp [get_agent_entry, hagent, hget]

/-- Resolving the clock device entry for an in-range clock index. -/
theorem get_clock_device_entry_ok (ctx : ScmiClockCtx)
    (service_id clock_id agent_id : Nat) (agent : ScmiClockAgent)
    (hagent : ctx.getAgentId service_id = .ok agent_id)
    (hget : ctx.agent_table[agent_id]? = some agent)
    (hidx : clock_id < agent.device_table.length) :
    get_clock_device_entry ctx service_id clock_id =
      .ok (agent.device_table.get ⟨clock_id, hidx⟩, agent) := by
  simp [get_clock_device_entry,
    get_agent_entry_ok ctx service_id agent_id agent hagent hget,
    List.getElem?_eq_getElem hidx, List.get_eq_getElem]

/-- Reading the committed agent:clock state for an in-range clock index. -/
theorem get_agent_clock_state_ok (ctx : ScmiClockCtx)
    (tables : ConfigPolicyTables) (service_id clock_idx agent_id : Nat)
    (agent : ScmiClockAgent)
    (hagent : ctx.getAgentId service_id = .ok agent_id)
    (hget : ctx.agent_table[agent_id]? = some agent)
    (hidx : clock_idx < agent.device_count) :
    get_agent_clock_state ctx tables service_id clock_idx =
      .ok (tables.agent_clock_state
        (agent_id * ctx.clock_devices + clock_idx)) := by
  simp [get_agent_clock_state,
    get_agent_entry_ok ctx service_id agent_id agent hagent hget,
    hagent, Nat.not_le_of_lt hidx]

/-- `set_agent_clock_state` never touches the reference-count table. -/
theorem set_agent_clock_state_clock_count (ctx : ScmiClockCtx)
    (tables : ConfigPolicyTables) (state : ModClockState)
    (service_id clock_idx : Nat) :
    (set_agent_clock_state ctx tables state service_id clock_idx).clock_count
      = tables.clock_count := by
  unfold set_agent_clock_state
  split
  · rfl
  · split
    · rfl
    · split
      · rfl
      · rfl

/-- C5: the default state-set policy writes the per-(agent, clock)
committed-state table and the clock reference-count table only in the
post-completion phase — a pre-dispatch invocation returns both tables
exactly as they were — and `clock_ops_update_state`, the only caller of
the post-completion phase, leaves the tables untouched whenever the
hardware call did not complete successfully. -/
theorem C5_policy_tables_written_only_post :
    (∀ (ctx : ScmiClockCtx) (tables : ConfigPolicyTables)
        (state : ModClockState) (service_id clock_dev_id : Nat),
      (mod_scmi_clock_config_set_policy ctx tables state .pre service_id
          clock_dev_id).tables = tables) ∧
    (∀ (ctx : ScmiClockCtx) (tables : ConfigPolicyTables)
        (slots : Nat → ClockOperations) (clock_dev_idx : Nat)
        (st : FwkStatus), st ≠ .success →
      clock_ops_update_state ctx tables slots clock_dev_idx st = tables) := by
  constructor
  · intro ctx tables state sid cid
    unfold mod_scmi_clock_config_set_policy
    cases hg : get_agent_clock_state ctx tables sid cid with
    | error e => rfl
    | ok cs =>
      cases state with
      | running =>
        by_cases h1 : cs = ModClockState.running <;> simp [h1]
      | stopped =>
        by_cases h1 : cs = ModClockState.stopped
        · simp [h1]
        · by_cases h2 : tables.clock_count cid = 0 <;> simp [h1, h2]
      | count => rfl
  · intro ctx tables slots cidx st h
    simp [clock_ops_update_state, h]

/-- Witness for C5: a pre-dispatch policy call and a failed-status
`clock_ops_update_state` both leave concrete tables unchanged. -/
theorem C5_policy_tables_written_only_post_witness :
    (mod_scmi_clock_config_set_policy ctx0
      ⟨fun _ => .stopped, fun _ => 1⟩ .running .pre 0 0).tables =
        ⟨fun _ => .stopped, fun _ => 1⟩ ∧
    FwkStatus.eDevice ≠ FwkStatus.success ∧
    clock_ops_update_state ctx0 ⟨fun _ => .stopped, fun _ => 1⟩ slots_busy 0
        .eDevice = ⟨fun _ => .stopped, fun _ => 1⟩ :=
  ⟨C5_policy_tables_written_only_post.1 ctx0 _ .running 0 0,
   by decide,
   C5_policy_tables_written_only_post.2 ctx0 _ slots_busy 0 .eDevice
     (by decide)⟩

/-- Tables in which every agent's committed state is STOPPED and every
clock's reference count is 1 (some other agent holds the clock running). -/
def tables1 : ConfigPolicyTables :=
  { agent_clock_state := fun _ => .stopped, clock_count := fun _ => 1 }

/-- C3 counterexample: pre-dispatch, with the requesting agent's committed
state STOPPED and the clock's reference count already 1, the default
state-set policy answers `SKIP_MESSAGE_HANDLER`, not
`EXECUTE_MESSAGE_HANDLER`, and the ConfigSet handler consequently
dispatches no hardware request (no event) and answers Success — refuting
the claim that the policy "still instructs the handler to dispatch". -/
theorem C3_counterexample :
    (mod_scmi_clock_config_set_policy ctx0 tables1 .running .pre 0
        0).policy_status = PolicyStatus.skipMessageHandler ∧
    PolicyStatus.skipMessageHandler ≠ PolicyStatus.executeMessageHandler ∧
    (scmi_clock_config_set_handler ctx0 tables1 slots_avail 0 0 1).1.events
      = [] ∧
    (scmi_clock_config_set_handler ctx0 tables1 slots_avail 0 0
        1).1.responses = [.statusOnly .success] :=
  ⟨rfl, by decide, rfl, rfl⟩

/-- C3 (amended): in the default state-set policy, when an agent whose
last committed state for a clock is not RUNNING requests RUNNING and the
clock's reference count is already nonzero, the policy records the
inconsistency internally (`FWK_E_STATE`) but returns overall success with
`SKIP_MESSAGE_HANDLER`, so the handler does not dispatch the hardware
request and answers Success with the tables unchanged; the count is
incremented only in the post-completion phase. -/
theorem C3_running_nonzero_count_skips_dispatch
    (ctx : ScmiClockCtx) (tables : ConfigPolicyTables)
    (service_id clock_id agent_id : Nat) (agent : ScmiClockAgent)
    (hagent : ctx.getAgentId service_id = .ok agent_id)
    (hget : ctx.agent_table[agent_id]? = some agent)
    (hidx : clock_id < agent.device_count)
    (hstate : tables.agent_clock_state
      (agent_id * ctx.clock_devices + clock_id) ≠ .running)
    (hcount : tables.clock_count clock_id ≠ 0) :
    mod_scmi_clock_config_set_policy ctx tables .running .pre service_id
        clock_id = ⟨.success, .skipMessageHandler, tables⟩ ∧
    (∀ slots : Nat → ClockOperations,
      scmi_clock_config_set_handler ctx tables slots service_id clock_id 1 =
        (⟨.success, slots, [.statusOnly .success], []⟩, tables)) ∧
    (mod_scmi_clock_config_set_policy ctx tables .running .post service_id
        clock_id).tables.clock_count clock_id =
      (tables.clock_count clock_id + 1) % 256 := by
  have hgcs := get_agent_clock_state_ok ctx tables service_id clock_id
    agent_id agent hagent hget hidx
  have hpre : mod_scmi_clock_config_set_policy ctx tables .running .pre
      service_id clock_id = ⟨.success, .skipMessageHandler, tables⟩ := by
    unfold mod_scmi_clock_config_set_policy
    rw [hgcs]
    simp [hstate, hcount]
  refine ⟨hpre, ?_, ?_⟩
  · intro slots
    have hdev := get_clock_device_entry_ok ctx service_id clock_id agent_id
      agent hagent hget hidx
    have hmask : 1 &&& ((2 ^ 32 - 1) ^^^ SCMI_CLOCK_CONFIG_SET_ENABLE_MASK)
        = 0 := by decide
    simp [scmi_clock_config_set_handler, hdev, hagent, hpre, hmask,
      SCMI_CLOCK_CONFIG_SET_ENABLE_MASK]
  · unfold mod_scmi_clock_config_set_policy
    rw [hgcs]
    simp [hstate, hcount, set_agent_clock_state_clock_count]

/-- Witness for C3 (amended) at the concrete one-agent configuration with
committed state STOPPED and reference count 1. -/
theorem C3_running_nonzero_count_skips_dispatch_witness :
    mod_scmi_clock_config_set_policy ctx0 tables1 .running .pre 0 0 =
      ⟨.success, .skipMessageHandler, tables1⟩ ∧
    scmi_clock_config_set_handler ctx0 tables1 slots_avail 0 0 1 =
      (⟨.success, slots_avail, [.statusOnly .success], []⟩, tables1) ∧
    (mod_scmi_clock_config_set_policy ctx0 tables1 .running .post 0
        0).tables.clock_count 0 = (tables1.clock_count 0 + 1) % 256 :=
  ⟨(C3_running_nonzero_count_skips_dispatch ctx0 tables1 0 0 0
      ⟨[⟨0, false⟩]⟩ rfl rfl (by decide) (by decide) (by decide)).1,
   (C3_running_nonzero_count_skips_dispatch ctx0 tables1 0 0 0
      ⟨[⟨0, false⟩]⟩ rfl rfl (by decide) (by decide) (by decide)).2.1
     slots_avail,
   (C3_running_nonzero_count_skips_dispatch ctx0 tables1 0 0 0
      ⟨[⟨0, false⟩]⟩ rfl rfl (by decide) (by decide) (by decide)).2.2⟩

/-- If the requested state equals the agent's committed state, the policy
returns success and SKIP without touching the tables (the two early
"already requested" returns, lines 519–521 and 548–550). -/
theorem config_set_policy_committed_skip (ctx : ScmiClockCtx)
    (tables : ConfigPolicyTables) (state : ModClockState)
    (policy_commit : PolicyCommit)
    (service_id clock_id agent_id : Nat) (agent : ScmiClockAgent)
    (hagent : ctx.getAgentId service_id = .ok agent_id)
    (hget : ctx.agent_table[agent_id]? = some agent)
    (hidx : clock_id < agent.device_count)
    (hs : state = ModClockState.running ∨ state = ModClockState.stopped)
    (hcommitted : tables.agent_clock_state
      (agent_id * ctx.clock_devices + clock_id) = state) :
    mod_scmi_clock_config_set_policy ctx tables state policy_commit
        service_id clock_id = ⟨.success, .skipMessageHandler, tables⟩ := by
  have hgcs := get_agent_clock_state_ok ctx tables service_id clock_id
    agent_id agent hagent hget hidx
  unfold mod_scmi_clock_config_set_policy
  rw [hgcs]
  rcases hs with h | h <;> subst h <;> simp [hcommitted]

/-- C8: for every agent, clock, and direction (enable when
`attributes = 1`, disable when `attributes = 0`), repeating a ConfigSet
request whose state the agent already committed returns Success, leaves
the tables (including the reference count) unchanged, claims no slot and
dispatches no hardware request — the policy signals skip. -/
theorem C8_idempotent_config_set (ctx : ScmiClockCtx)
    (tables : ConfigPolicyTables) (slots : Nat → ClockOperations)
    (service_id clock_id agent_id attributes : Nat)
    (agent : ScmiClockAgent)
    (hagent : ctx.getAgentId service_id = .ok agent_id)
    (hget : ctx.agent_table[agent_id]? = some agent)
    (hidx : clock_id < agent.device_count)
    (hattr : attributes = 0 ∨ attributes = 1)
    (hcommitted : tables.agent_clock_state
        (agent_id * ctx.clock_devices + clock_id) =
      if attributes &&& SCMI_CLOCK_CONFIG_SET_ENABLE_MASK ≠ 0 then
        ModClockState.running else ModClockState.stopped) :
    scmi_clock_config_set_handler ctx tables slots service_id clock_id
        attributes = (⟨.success, slots, [.statusOnly .success], []⟩,
      tables) := by
  have hdev := get_clock_device_entry_ok ctx service_id clock_id agent_id
    agent hagent hget hidx
  rcases hattr with h | h <;> subst h
  · have hc : tables.agent_clock_state
        (agent_id * ctx.clock_devices + clock_id) = .stopped := by
      simpa [SCMI_CLOCK_CONFIG_SET_ENABLE_MASK] using hcommitted
    have hpol := config_set_policy_committed_skip ctx tables .stopped .pre
      service_id clock_id agent_id agent hagent hget hidx (Or.inr rfl) hc
    have hmask : 0 &&& ((2 ^ 32 - 1) ^^^ SCMI_CLOCK_CONFIG_SET_ENABLE_MASK)
        = 0 := by decide
    simp [scmi_clock_config_set_handler, hdev, hagent, hpol, hmask,
      SCMI_CLOCK_CONFIG_SET_ENABLE_MASK]
  · have hc : tables.agent_clock_state
        (agent_id * ctx.clock_devices + clock_id) = .running := by
      simpa [SCMI_CLOCK_CONFIG_SET_ENABLE_MASK] using hcommitted
    have hpol := config_set_policy_committed_skip ctx tables .running .pre
      service_id clock_id agent_id agent hagent hget hidx (Or.inl rfl) hc
    have hmask : 1 &&& ((2 ^ 32 - 1) ^^^ SCMI_CLOCK_CONFIG_SET_ENABLE_MASK)
        = 0 := by decide
    simp [scmi_clock_config_set_handler, hdev, hagent, hpol, hmask,
      SCMI_CLOCK_CONFIG_SET_ENABLE_MASK]

/-- Witness for C8: with committed state STOPPED, repeating the disable
request (`attributes = 0`) answers Success with nothing changed. -/
theorem C8_idempotent_config_set_witness :
    scmi_clock_config_set_handler ctx0 tables1 slots_avail 0 0 0 =
      (⟨.success, slots_avail, [.statusOnly .success], []⟩, tables1) :=
  C8_idempotent_config_set ctx0 tables1 slots_avail 0 0 0 0
    ⟨[⟨0, false⟩]⟩ rfl rfl (by decide) (Or.inl rfl) (by decide)

/-! ## Event processing: request events and the Completion Correlator -/

/-- Result of processing an event: returned status, slot table, policy
tables, responses sent. -/
structure ProcessResult where
  ret : FwkStatus
  slots : Nat → ClockOperations
  tables : ConfigPolicyTables
  responses : List ScmiResponse

/-- `process_request_event` (lines 1419–1499).  The clock HAL call that
the event triggers is abstracted by its synchronous result: `hwStatus`
(where `.pending` defers completion to the correlator) together with the
output value (`hwState` for `get_state`, `hwRate` for `get_rate`).

Note the release asymmetry of the source: the SET_RATE / SET_STATE arms
overwrite `status` with `FWK_SUCCESS` after responding, but the GET_STATE
/ GET_RATE arms keep the hardware error status, and
`clock_ops_set_available` is only called when the final status is
`FWK_SUCCESS` (lines 1494–1496). -/
def process_request_event (ctx : ScmiClockCtx)
    (tables : ConfigPolicyTables) (slots : Nat → ClockOperations)
    (ev : FwkEventReq) (hwStatus : FwkStatus) (hwState : ModClockState)
    (hwRate : Nat) : ProcessResult :=
  let clock_dev_idx := ev.clock_dev_idx
  let step : FwkStatus × ConfigPolicyTables × List ScmiResponse :=
    match ev.kind with
    | .getState =>
      if hwStatus ≠ .pending then
        (hwStatus, tables, [get_state_respond hwState hwStatus])
      else (hwStatus, tables, [])
    | .getRate =>
      if hwStatus ≠ .pending then
        (hwStatus, tables, [get_rate_respond hwRate hwStatus])
      else (hwStatus, tables, [])
    | .setRate =>
      if hwStatus ≠ .pending then
        (.success, tables, [set_request_respond hwStatus])
      else (hwStatus, tables, [])
    | .setState =>
      if hwStatus ≠ .pending then
        (.success,
         clock_ops_update_state ctx tables slots clock_dev_idx hwStatus,
         [set_request_respond hwStatus])
      else (hwStatus, tables, [])
  if step.1 = .pending then ⟨.success, slots, step.2.1, step.2.2⟩
  else if step.1 = .success then
    ⟨.success, clock_ops_set_available slots clock_dev_idx, step.2.1,
     step.2.2⟩
  else ⟨step.1, slots, step.2.1, step.2.2⟩

/-- `process_response_event` (lines 1501–1546), the Completion Correlator:
resolve the waiting service from the slot, encode the response matching
the recorded request kind (or the generic failure mapping on a non-success
completion status), run the post-completion policy for state-mutating
kinds, and always release the slot. -/
def process_response_event (ctx : ScmiClockCtx)
    (tables : ConfigPolicyTables) (slots : Nat → ClockOperations)
    (event_idx : ScmiClockRequestType) (clock_dev_idx : Nat)
    (params_status : FwkStatus) (params_state : ModClockState)
    (params_rate : Nat) : ProcessResult :=
  let resp : ScmiResponse :=
    if params_status ≠ .success then request_response params_status
    else
      match event_idx with
      | .getState => get_state_respond params_state .success
      | .getRate => get_rate_respond params_rate .success
      | .setRate => set_request_respond .success
      | .setState => set_request_respond .success
  let tables2 :=
    if params_status = .success ∧
        (event_idx = .setRate ∨ event_idx = .setState) then
      clock_ops_update_state ctx tables slots clock_dev_idx .success
    else tables
  ⟨.success, clock_ops_set_available slots clock_dev_idx, tables2, [resp]⟩

/-- C1 (code-bug demonstration): with the slot for physical clock 0 owned
by service 7, a GET_STATE request event whose hardware call completes
synchronously with an error (`FWK_E_DEVICE`) is a terminal outcome — the
agent is sent the GenericError response — yet the operation slot is NOT
released (`service_id` stays `some 7`) because `process_request_event`
releases only on `FWK_SUCCESS` and the GET arms, unlike the SET arms, do
not overwrite the error status.  For contrast, a SET_STATE request event
failing the same way does release the slot, and an asynchronous
completion for GET_STATE always releases it. -/
theorem C1_sync_get_error_leaks_busy_slot :
    (process_request_event ctx0 tables1 slots_busy ⟨.getState, 0, .empty⟩
        .eDevice .stopped 0).responses = [.statusOnly .genericError] ∧
    ((process_request_event ctx0 tables1 slots_busy ⟨.getState, 0, .empty⟩
        .eDevice .stopped 0).slots 0).service_id = some 7 ∧
    (process_request_event ctx0 tables1 slots_busy ⟨.getState, 0, .empty⟩
        .eDevice .stopped 0).ret = .eDevice ∧
    ((process_request_event ctx0 tables1 slots_busy
        ⟨.setState, 0, .stateData .running⟩ .eDevice .stopped 0).slots
        0).service_id = none ∧
    ((process_response_event ctx0 tables1 slots_busy .getState 0 .eDevice
        .stopped 0).slots 0).service_id = none :=
  ⟨rfl, rfl, rfl, rfl, rfl⟩

/-! ## Clock Rate Set handler (C9) -/

/-- `SCMI_CLOCK_RATE_SET_ROUND_UP_MASK`.  Modelled from the spec: §6 gives
the ClockRateSet flags word as `flags(round_up|round_auto|async)` (the
header defining the masks is not under `src/`); the three flags occupy
three distinct low bits. -/
def SCMI_CLOCK_RATE_SET_ROUND_UP_MASK : Nat := 1

/-- `SCMI_CLOCK_RATE_SET_ROUND_AUTO_MASK`.  Modelled from the spec (see
`SCMI_CLOCK_RATE_SET_ROUND_UP_MASK`). -/
def SCMI_CLOCK_RATE_SET_ROUND_AUTO_MASK : Nat := 2

/-- `SCMI_CLOCK_RATE_SET_ASYNC_MASK`.  Modelled from the spec (see
`SCMI_CLOCK_RATE_SET_ROUND_UP_MASK`). -/
def SCMI_CLOCK_RATE_SET_ASYNC_MASK : Nat := 4

/-- `SCMI_CLOCK_RATE_SET_FLAGS_MASK`: the union of the three known flag
bits. -/
def SCMI_CLOCK_RATE_SET_FLAGS_MASK : Nat :=
  SCMI_CLOCK_RATE_SET_ROUND_UP_MASK |||
  SCMI_CLOCK_RATE_SET_ROUND_AUTO_MASK |||
  SCMI_CLOCK_RATE_SET_ASYNC_MASK

/-- `scmi_clock_rate_set_handler` (lines 932–1036): reject unknown flag
bits (before any lookup), registry lookup, reject asynchronous requests as
NotSupported, decode the rate and round mode, run the rate-set policy in
pre mode, then a SET_RATE event request.  The handler itself always
returns `FWK_SUCCESS`. -/
def scmi_clock_rate_set_handler (ctx : ScmiClockCtx)
    (slots : Nat → ClockOperations)
    (service_id clock_id flags rate_lo rate_hi : Nat) : HandlerResult :=
  let round_up := flags &&& SCMI_CLOCK_RATE_SET_ROUND_UP_MASK ≠ 0
  let round_auto := flags &&& SCMI_CLOCK_RATE_SET_ROUND_AUTO_MASK ≠ 0
  let asynchronous := flags &&& SCMI_CLOCK_RATE_SET_ASYNC_MASK ≠ 0
  if flags &&& ((2 ^ 32 - 1) ^^^ SCMI_CLOCK_RATE_SET_FLAGS_MASK) ≠ 0 then
    ⟨.success, slots, [.statusOnly .invalidParameters], []⟩
  else
    match get_clock_device_entry ctx service_id clock_id with
    | .error _ => ⟨.success, slots, [.statusOnly .notFound], []⟩
    | .ok (clock_device, _agent) =>
      if asynchronous then
        ⟨.success, slots, [.statusOnly .notSupported], []⟩
      else
        match ctx.getAgentId service_id with
        | .error _ => ⟨.success, slots, [.statusOnly .genericError], []⟩
        | .ok _agent_id =>
          let rate := rate_set_decode rate_lo rate_hi
          let round_mode : ModClockRoundMode :=
            if round_auto then .nearest
            else if round_up then .up else .down
          match mod_scmi_clock_rate_set_policy round_mode rate .pre
              service_id clock_id with
          | (pst, policy_status, round_mode2, rate2) =>
            if pst ≠ .success then
              ⟨.success, slots, [.statusOnly .genericError], []⟩
            else if policy_status = .skipMessageHandler then
              ⟨.success, slots, [.statusOnly .success], []⟩
            else
              let r := create_event_request slots clock_device.element_idx
                service_id .setRate
                (.rateData (rate2 % 2 ^ 32) ((rate2 >>> 32) % 2 ^ 32)
                  round_mode2)
                clock_id
              if r.ret = .eBusy then
                ⟨.success, slots, [.statusOnly .busy], []⟩
              else if r.ret ≠ .success then
                ⟨.success, slots, [.statusOnly .genericError], r.events⟩
              else ⟨.success, r.slots, [], r.events⟩

/-- C9: for every ClockRateSet request whose flags word has any bit set
outside the round-up, round-auto and asynchronous bits, the response is
the status-only InvalidParameters, no hardware request is dispatched (no
event queued) and no operation slot is claimed (slot table unchanged);
the check precedes every other step of the handler. -/
theorem C9_rate_set_unknown_flag_rejected (ctx : ScmiClockCtx)
    (slots : Nat → ClockOperations)
    (service_id clock_id flags rate_lo rate_hi : Nat)
    (h : flags &&& ((2 ^ 32 - 1) ^^^ SCMI_CLOCK_RATE_SET_FLAGS_MASK) ≠ 0) :
    scmi_clock_rate_set_handler ctx slots service_id clock_id flags rate_lo
        rate_hi = ⟨.success, slots, [.statusOnly .invalidParameters], []⟩ := by
  unfold scmi_clock_rate_set_handler
  rw [if_pos h]

/-- Witness for C9 at `flags = 2^31` (bit 31 set). -/
theorem C9_rate_set_unknown_flag_rejected_witness :
    2 ^ 31 &&& ((2 ^ 32 - 1) ^^^ SCMI_CLOCK_RATE_SET_FLAGS_MASK) ≠ 0 ∧
    scmi_clock_rate_set_handler ctx0 slots_avail 0 0 (2 ^ 31) 5 6 =
      ⟨.success, slots_avail, [.statusOnly .invalidParameters], []⟩ :=
  ⟨by decide,
   C9_rate_set_unknown_flag_rejected ctx0 slots_avail 0 0 (2 ^ 31) 5 6
     (by decide)⟩

/-! ## Clock Describe Rates handler (C7) -/

/-- `enum mod_clock_rate_type` (`mod_clock.h`): discrete list of rates or
continuous (linear stepping) range. -/
inductive ClockRateType where
  | discrete
  | continuous
  deriving DecidableEq, Repr

/-- `struct mod_clock_info` as used by the handler: the range kind and,
for discrete clocks, the number of rates; for linear clocks the
(min, max, step) triplet. -/
structure ModClockInfo where
  rate_type : ClockRateType
  rate_count : Nat
  range_min : Nat
  range_max : Nat
  range_step : Nat
  deriving DecidableEq, Repr

/-- `SCMI_CLOCK_RATES_MAX(max_payload_size)`: how many rate entries fit in
a response payload.  Modelled from the spec:
`rates_per_payload = floor((max_payload - fixed_header_size) / rate_entry_size)`
(the macro lives in `internal/scmi_clock.h`, not under `src/`); the fixed
header (`status`, `num_rates_flags`) is 8 bytes and a rate entry
(low word, high word) is 8 bytes. -/
def SCMI_CLOCK_RATES_MAX (max_payload_size : Nat) : Nat :=
  (max_payload_size - 8) / 8

/-- `SCMI_CLOCK_RATE_FORMAT_LIST` / `SCMI_CLOCK_RATE_FORMAT_RANGE` in the
`num_rates_flags` response word. -/
inductive ScmiRateFormat where
  | list
  | range
  deriving DecidableEq, Repr

/-- Outcome of a DescribeRates request: a status-only failure response, or
the success response described by its `num_rates_flags` fields
(`rate_count`, format, `remaining`) and the rate entries written to the
payload as (low, high) word pairs. -/
inductive DescribeOutcome where
  | failure (st : ScmiStatus)
  | filled (rate_count : Nat) (fmt : ScmiRateFormat) (remaining : Nat)
      (entries : List (Nat × Nat))
  deriving DecidableEq, Repr

/-- The `for` loop of the discrete branch (lines 1218–1236): read the rate
at each index from `get_rate_from_index`, encode it as (low, high) words,
abort with the hardware status on failure. -/
def gather_rates (get_rate_from_index : Nat → Except FwkStatus Nat)
    (index : Nat) : Nat → Except FwkStatus (List (Nat × Nat))
  | 0 => .ok []
  | n + 1 =>
    match get_rate_from_index index with
    | .error e => .error e
    | .ok rate =>
      match gather_rates get_rate_from_index (index + 1) n with
      | .error e => .error e
      | .ok rest => .ok (rate_words_encode rate :: rest)

/-- `scmi_clock_describe_rates_handler` (lines 1128–1281).  The transport
`get_max_payload_size` is modelled by its value (its failure path merely
responds GenericError before any computation); the clock HAL `get_info`
and `get_rate_from_index` calls are parameters. -/
def scmi_clock_describe_rates_handler (ctx : ScmiClockCtx)
    (service_id clock_id rate_index max_payload_size : Nat)
    (getInfo : Except FwkStatus ModClockInfo)
    (get_rate_from_index : Nat → Except FwkStatus Nat) :
    FwkStatus × DescribeOutcome :=
  match get_clock_device_entry ctx service_id clock_id with
  | .error e => (e, .failure .notFound)
  | .ok (_clock_device, _agent) =>
    match getInfo with
    | .error e => (e, .failure .genericError)
    | .ok info =>
      match info.rate_type with
      | .discrete =>
        if rate_index ≥ info.rate_count then
          (.success, .failure .outOfRange)
        else if SCMI_CLOCK_RATES_MAX max_payload_size = 0 then
          (.eSize, .failure .genericError)
        else
          let rate_count := min (SCMI_CLOCK_RATES_MAX max_payload_size)
            (info.rate_count - rate_index)
          let remaining := (info.rate_count - rate_index) - rate_count
          match gather_rates get_rate_from_index rate_index rate_count with
          | .error e => (e, .failure .genericError)
          | .ok entries =>
            (.success, .filled rate_count .list remaining entries)
      | .continuous =>
        if SCMI_CLOCK_RATES_MAX max_payload_size < 3 then
          (.eSize, .failure .genericError)
        else
          (.success, .filled 1 .range 0
            [rate_words_encode info.range_min,
             rate_words_encode info.range_max,
             rate_words_encode info.range_step])

/-- When every hardware rate read succeeds, the gathered entries are the
encoded rates at `index, index+1, …`. -/
theorem gather_rates_ok (f : Nat → Nat) :
    ∀ (n index : Nat),
      gather_rates (fun i => .ok (f i)) index n =
        .ok ((List.range n).map fun i => rate_words_encode (f (index + i))) := by
  intro n
  induction n with
  | zero => intro index; rfl
  | succ m ih =>
    intro index
    rw [gather_rates, ih (index + 1), List.range_succ_eq_map]
    simp only [List.map_cons, List.map_map, Nat.add_zero]
    refine congrArg Except.ok (congrArg₂ List.cons rfl ?_)
    apply List.map_congr_left
    intro i _
    simp only [Function.comp_apply]
    congr 2
    omega

/-- C7: for every DescribeRates request on a discrete-rate clock with
`total_rates = info.rate_count` rates and starting index within range, the
response carries `rate_count = min(rates_per_payload, total_rates - index)`
entries starting at `index` and reports
`remaining = (total_rates - index) - rate_count`, where
`rates_per_payload = SCMI_CLOCK_RATES_MAX max_payload_size` is the number
of rate entries that fit in the transport's maximum payload after the
fixed header; a starting index `≥ total_rates` yields OutOfRange. -/
theorem C7_describe_rates_discrete_pagination (ctx : ScmiClockCtx)
    (service_id clock_id agent_id rate_index max_payload_size : Nat)
    (agent : ScmiClockAgent) (info : ModClockInfo) (f : Nat → Nat)
    (hagent : ctx.getAgentId service_id = .ok agent_id)
    (hget : ctx.agent_table[agent_id]? = some agent)
    (hidx : clock_id < agent.device_table.length)
    (htype : info.rate_type = .discrete)
    (hfit : SCMI_CLOCK_RATES_MAX max_payload_size ≠ 0) :
    (rate_index < info.rate_count →
      scmi_clock_describe_rates_handler ctx service_id clock_id rate_index
          max_payload_size (.ok info) (fun i => .ok (f i)) =
        (.success, .filled
          (min (SCMI_CLOCK_RATES_MAX max_payload_size)
            (info.rate_count - rate_index))
          .list
          ((info.rate_count - rate_index) -
            min (SCMI_CLOCK_RATES_MAX max_payload_size)
              (info.rate_count - rate_index))
          ((List.range (min (SCMI_CLOCK_RATES_MAX max_payload_size)
              (info.rate_count - rate_index))).map
            fun i => rate_words_encode (f (rate_index + i))))) ∧
    (rate_index ≥ info.rate_count →
      scmi_clock_describe_rates_handler ctx service_id clock_id rate_index
          max_payload_size (.ok info) (fun i => .ok (f i)) =
        (.success, .failure .outOfRange)) := by
  have hdev := get_clock_device_entry_ok ctx service_id clock_id agent_id
    agent hagent hget hidx
  constructor
  · intro hlt
    simp [scmi_clock_describe_rates_handler, hdev, htype,
      Nat.not_le_of_lt hlt, hfit, gather_rates_ok]
  · intro hge
    simp [scmi_clock_describe_rates_handler, hdev, htype, hge]

/-- Witness for C7: a discrete clock with 5 rates `f i = 100 * (i + 1)`
and a 24-byte payload (2 entries per page): from index 3 the response
carries `min 2 2 = 2` entries (the rates at indices 3 and 4) and reports
0 remaining; index 9 is OutOfRange. -/
theorem C7_describe_rates_discrete_pagination_witness :
    scmi_clock_describe_rates_handler ctx0 0 0 3 24
        (.ok ⟨.discrete, 5, 0, 0, 0⟩) (fun i => .ok (100 * (i + 1))) =
      (.success, .filled 2 .list 0
        [rate_words_encode 400, rate_words_encode 500]) ∧
    scmi_clock_describe_rates_handler ctx0 0 0 9 24
        (.ok ⟨.discrete, 5, 0, 0, 0⟩) (fun i => .ok (100 * (i + 1))) =
      (.success, .failure .outOfRange) := by
  constructor
  · have h := (C7_describe_rates_discrete_pagination ctx0 0 0 0 3 24
      ⟨[⟨0, false⟩]⟩ ⟨.discrete, 5, 0, 0, 0⟩ (fun i => 100 * (i + 1))
      rfl rfl (by decide) rfl (by decide)).1 (by decide)
    rw [h]
    rfl
  · exact (C7_describe_rates_discrete_pagination ctx0 0 0 0 9 24
      ⟨[⟨0, false⟩]⟩ ⟨.discrete, 5, 0, 0, 0⟩ (fun i => 100 * (i + 1))
      rfl rfl (by decide) rfl (by decide)).2 (by decide)
